import Mathlib

/-!
Verification of the ClawJudge on-chain judge-consensus and escrow-settlement
protocol (contracts EscrowJudge, JudgeRegistry, CommitReveal, JudgeSelection,
Solidity 0.8).  The contracts are shallowly embedded: `uint256` values become
`Nat`, addresses become `Nat` (`0` is `address(0)`), Solidity mappings become
association lists with zero-initialised defaults, `require`/checked-arithmetic
reverts become `Except.error`, emitted events and token transfers become
explicit logs in the state.  A reverting call returns `.error` and, per EVM
semantics, leaves the caller's state exactly as before the call.
-/

namespace Clawjudge

/-- Association-list lookup with a default, modelling a Solidity mapping
(missing keys read as the zero value of the type). -/
def getA {α : Type} (m : List (Nat × α)) (k : Nat) (d : α) : α :=
  match m with
  | [] => d
  | (k0, v0) :: t => if k = k0 then v0 else getA t k d

/-- Association-list update, modelling a Solidity mapping write. -/
def setA {α : Type} (m : List (Nat × α)) (k : Nat) (v : α) : List (Nat × α) :=
  match m with
  | [] => [(k, v)]
  | (k0, v0) :: t => if k = k0 then (k, v) :: t else (k0, v0) :: setA t k v

/-- Solidity `require(cond, msg)`: reverts with `msg` when the condition is
false. -/
def require (c : Prop) [Decidable c] (msg : String) : Except String Unit :=
  if c then .ok () else .error msg

/-- Checked subtraction of Solidity 0.8: reverts (panics) on underflow
instead of wrapping or truncating. -/
def csub (a b : Nat) : Except String Nat :=
  if b ≤ a then .ok (a - b) else .error "arithmetic underflow"

/-- Whether an `Except` computation succeeded. -/
def isOk {ε α : Type} : Except ε α → Bool
  | .ok _ => true
  | .error _ => false

/-- Value of a successful computation, the fallback when it reverted. -/
def okD {ε α : Type} (r : Except ε α) (d : α) : α :=
  match r with
  | .ok a => a
  | .error _ => d

/-! ## JudgeRegistry (src/unnamed/part_008) -/

namespace JudgeRegistry

def MINIMUM_STAKE : Nat := 50 * 10 ^ 6
def INITIAL_REPUTATION : Nat := 500
def MAX_REPUTATION : Nat := 1000
def MIN_REPUTATION : Nat := 0
def SLASH_PERCENTAGE : Nat := 10
def CONSECUTIVE_MINORITY_THRESHOLD : Nat := 3
def REPUTATION_THRESHOLD_LOW : Nat := 300

/-- The `Judge` struct of JudgeRegistry.sol. -/
structure Judge where
  judgeAddress : Nat
  stakedAmount : Nat
  reputation : Nat
  lastActivity : Nat
  totalVerdicts : Nat
  correctVerdicts : Nat
  consecutiveMinority : Nat
  isActive : Bool
  isRegistered : Bool
deriving DecidableEq, Repr

/-- Zero value of the `Judge` struct (unregistered address). -/
def defaultJudge : Judge :=
  { judgeAddress := 0, stakedAmount := 0, reputation := 0, lastActivity := 0
    totalVerdicts := 0, correctVerdicts := 0, consecutiveMinority := 0
    isActive := false, isRegistered := false }

/-- Contract storage of JudgeRegistry plus a log of outbound USDC transfers
(`usdc.safeTransfer` calls), newest first. -/
structure State where
  judges : List (Nat × Judge)
  judgeList : List Nat
  totalActiveJudges : Nat
  escrowJudge : Nat
  ownerAddr : Nat
  paused : Bool
  transfersOut : List (Nat × Nat)
deriving DecidableEq, Repr

def getJudge (s : State) (a : Nat) : Judge := getA s.judges a defaultJudge

def setJudge (s : State) (a : Nat) (j : Judge) : State :=
  { s with judges := setA s.judges a j }

/-- Internal `_deactivateJudge`. -/
def deactivateJudge (s : State) (a : Nat) : State :=
  let j := getJudge s a
  if j.isActive then
    { setJudge s a { j with isActive := false } with
      totalActiveJudges := s.totalActiveJudges - 1 }
  else s

/-- Internal `_slashJudge`: removes `SLASH_PERCENTAGE` of stake to the owner,
resets the minority streak, applies a checked `-100` reputation hit (`_max`
floors only after the checked subtraction), and deactivates below minimum
stake. -/
def slashJudge (s : State) (a : Nat) : Except String State := do
  let j := getJudge s a
  let slashAmount := j.stakedAmount * SLASH_PERCENTAGE / 100
  let j1 := { j with stakedAmount := j.stakedAmount - slashAmount }
  let s1 := { setJudge s a j1 with
              transfersOut := (s.ownerAddr, slashAmount) :: s.transfersOut }
  let r ← csub j1.reputation 100
  let j2 := { j1 with consecutiveMinority := 0, reputation := max r MIN_REPUTATION }
  let s2 := setJudge s1 a j2
  if j2.stakedAmount < MINIMUM_STAKE then
    pure (deactivateJudge s2 a)
  else
    pure s2

/-- `withdrawStake` of JudgeRegistry.sol.  `caller` is `msg.sender`. -/
def withdrawStake (s : State) (caller amount : Nat) : Except String State := do
  let j := getJudge s caller
  (require j.isRegistered "Not registered").bind fun _ => do
  (require (amount ≤ j.stakedAmount) "Insufficient stake").bind fun _ => do
  (require (0 < amount) "Amount must be > 0").bind fun _ => do
  (if j.isActive then
      require (MINIMUM_STAKE ≤ j.stakedAmount - amount) "Cannot go below minimum stake"
    else .ok ()).bind fun _ => do
  let j1 := { j with stakedAmount := j.stakedAmount - amount }
  let s1 := { setJudge s caller j1 with
              transfersOut := (caller, amount) :: s.transfersOut }
  if j1.stakedAmount < MINIMUM_STAKE ∧ j1.isActive then
    pure (deactivateJudge s1 caller)
  else
    pure s1

/-- `recordVerdictResult` of JudgeRegistry.sol.  `caller` is `msg.sender`
(must be the stored EscrowJudge address).  Reputation moves use the source's
`_min`/`_max` helpers whose subtraction argument is computed with Solidity
0.8 checked arithmetic. -/
def recordVerdictResult (s : State) (caller judge : Nat) (agreed : Bool)
    (now : Nat) : Except String State := do
  (require (caller = s.escrowJudge) "Only EscrowJudge").bind fun _ => do
  (require (getJudge s judge).isRegistered "Not registered").bind fun _ => do
  (require (¬ s.paused) "Pausable: paused").bind fun _ => do
  let j0 := getJudge s judge
  let j1 := { j0 with totalVerdicts := j0.totalVerdicts + 1, lastActivity := now }
  if agreed then
    let j2 := { j1 with correctVerdicts := j1.correctVerdicts + 1,
                        consecutiveMinority := 0 }
    let j3 := if j2.reputation < MAX_REPUTATION then
        { j2 with reputation := min (j2.reputation + 10) MAX_REPUTATION }
      else j2
    let s1 := setJudge s judge j3
    if j3.reputation < REPUTATION_THRESHOLD_LOW ∧ j3.isActive then
      pure (deactivateJudge s1 judge)
    else
      pure s1
  else
    let j2 := { j1 with consecutiveMinority := j1.consecutiveMinority + 1 }
    let j3 ← if 0 < j2.reputation then do
        let r ← csub j2.reputation 20
        pure { j2 with reputation := max r MIN_REPUTATION }
      else pure j2
    let s1 := setJudge s judge j3
    let s2 ← if CONSECUTIVE_MINORITY_THRESHOLD ≤ j3.consecutiveMinority then
        slashJudge s1 judge
      else pure s1
    let j4 := getJudge s2 judge
    if j4.reputation < REPUTATION_THRESHOLD_LOW ∧ j4.isActive then
      pure (deactivateJudge s2 judge)
    else
      pure s2

/-- `getReputation` view. -/
def getReputation (s : State) (a : Nat) : Nat := (getJudge s a).reputation

/-- `getEligibleJudges` view: active judges with reputation at or above the
low-water mark, in `judgeList` order. -/
def getEligibleJudges (s : State) : List Nat :=
  s.judgeList.filter fun a =>
    (getJudge s a).isActive ∧ REPUTATION_THRESHOLD_LOW ≤ (getJudge s a).reputation

/-- A registered, active judge with the given reputation and minimum stake. -/
def mkJudge (a rep : Nat) : Judge :=
  { judgeAddress := a, stakedAmount := MINIMUM_STAKE, reputation := rep
    lastActivity := 0, totalVerdicts := 0, correctVerdicts := 0
    consecutiveMinority := 0, isActive := true, isRegistered := true }

/-- Registry holding one judge (address 1) with reputation 10, as produced by
inactivity decay from the initial reputation; EscrowJudge address is 50. -/
def regLowRep : State :=
  { judges := [(1, mkJudge 1 10)], judgeList := [1], totalActiveJudges := 1
    escrowJudge := 50, ownerAddr := 9, paused := false, transfersOut := [] }

/-- Registry holding one judge (address 1) with reputation 25. -/
def regMidRep : State :=
  { judges := [(1, mkJudge 1 25)], judgeList := [1], totalActiveJudges := 1
    escrowJudge := 50, ownerAddr := 9, paused := false, transfersOut := [] }

/-- Registry holding one judge (address 1) with exactly the minimum stake. -/
def regMinStake : State :=
  { judges := [(1, mkJudge 1 500)], judgeList := [1], totalActiveJudges := 1
    escrowJudge := 50, ownerAddr := 9, paused := false, transfersOut := [] }

/-- Registry holding one judge (address 1) with stake 60 USDC. -/
def regBigStake : State :=
  { judges := [(1, { mkJudge 1 500 with stakedAmount := 60 * 10 ^ 6 })]
    judgeList := [1], totalActiveJudges := 1
    escrowJudge := 50, ownerAddr := 9, paused := false, transfersOut := [] }

end JudgeRegistry

/-! ## EscrowJudge (src/contracts/interfaces/IJudgeRegistry.sol, second
document: the EscrowJudge contract) -/

namespace EscrowJudge

def FEE_BASIS_POINTS : Nat := 200
def BASIS_POINTS_DENOMINATOR : Nat := 10000
def DISPUTE_WINDOW : Nat := 7 * 86400
def MIN_JUDGES : Nat := 5
def SUPERMAJORITY_THRESHOLD : Nat := 4
def EXPANDED_PANEL_SIZE : Nat := 9
def EXPANDED_SUPERMAJORITY : Nat := 6

/-- `BountyStatus` enum. -/
inductive BountyStatus where
  | Pending | Submitted | Judging | Reveal | Completed | Disputed | Cancelled
deriving DecidableEq, Repr

/-- `Verdict` enum (`Part` is the source's `Partial`). -/
inductive Verdict where
  | NoneV | Pass | Part | Fail
deriving DecidableEq, Repr

/-- The `Bounty` struct.  `partPct` is the source's `partialPercentage`. -/
structure Bounty where
  poster : Nat
  worker : Nat
  token : Nat
  amount : Nat
  createdAt : Nat
  deadline : Nat
  judgeDeadline : Nat
  status : BountyStatus
  requirementsHash : Nat
  submissionHash : Nat
  partPct : Nat
  feeAmount : Nat
deriving DecidableEq, Repr

def defaultBounty : Bounty :=
  { poster := 0, worker := 0, token := 0, amount := 0, createdAt := 0
    deadline := 0, judgeDeadline := 0, status := .Pending
    requirementsHash := 0, submissionHash := 0, partPct := 0, feeAmount := 0 }

/-- The `JudgePanel` struct.  `partPcts` is the source's
`partialPercentages` mapping. -/
structure JudgePanel where
  judges : List Nat
  commitDeadline : Nat
  revealDeadline : Nat
  commitPhaseComplete : Bool
  revealPhaseComplete : Bool
  hasCommitted : List (Nat × Bool)
  hasRevealed : List (Nat × Bool)
  verdicts : List (Nat × Verdict)
  partPcts : List (Nat × Nat)
deriving DecidableEq, Repr

def defaultPanel : JudgePanel :=
  { judges := [], commitDeadline := 0, revealDeadline := 0
    commitPhaseComplete := false, revealPhaseComplete := false
    hasCommitted := [], hasRevealed := [], verdicts := [], partPcts := [] }

/-- The `Dispute` struct. -/
structure Dispute where
  bountyId : Nat
  createdAt : Nat
  arbitrationDeadline : Nat
  arbitrator : Nat
  resolved : Bool
  finalVerdict : Verdict
  finalPartPct : Nat
deriving DecidableEq, Repr

def defaultDispute : Dispute :=
  { bountyId := 0, createdAt := 0, arbitrationDeadline := 0, arbitrator := 0
    resolved := false, finalVerdict := .NoneV, finalPartPct := 0 }

/-- Observable events of EscrowJudge relevant to settlement. -/
inductive EEvent where
  | FundsReleased (bountyId : Nat) (verdict : Verdict)
      (workerAmount feeAmount : Nat)
  | DisputeInitiated (bountyId disputeId arbitrationDeadline : Nat)
deriving DecidableEq, Repr

/-- Contract storage of EscrowJudge plus logs of fund transfers
(`_transferFunds` calls: recipient, token, amount) and emitted events,
newest first. -/
structure State where
  treasury : Nat
  nextBountyId : Nat
  bounties : List (Nat × Bounty)
  panels : List (Nat × JudgePanel)
  disputes : List (Nat × Dispute)
  judgeRegistryAddr : Nat
  commitRevealAddr : Nat
  ownerAddr : Nat
  paused : Bool
  transfers : List (Nat × Nat × Nat)
  events : List EEvent
deriving DecidableEq, Repr

def getBounty (s : State) (i : Nat) : Bounty := getA s.bounties i defaultBounty

def getPanel (s : State) (i : Nat) : JudgePanel := getA s.panels i defaultPanel

def setBounty (s : State) (i : Nat) (b : Bounty) : State :=
  { s with bounties := setA s.bounties i b }

def setPanel (s : State) (i : Nat) (p : JudgePanel) : State :=
  { s with panels := setA s.panels i p }

/-- `getPanelJudges` view. -/
def getPanelJudges (s : State) (i : Nat) : List Nat := (getPanel s i).judges

/-- Internal `_transferFunds`: requires a nonzero recipient and logs the
transfer (ETH and ERC20 behave identically at this level). -/
def transferFunds (s : State) (dst token amount : Nat) : Except String State :=
  (require (dst ≠ 0) "Invalid recipient").map fun _ =>
    { s with transfers := (dst, token, amount) :: s.transfers }

/-- `100000 * 50 gwei`, the hardcoded `_estimateGasCost()` result (in wei). -/
def estimateGasCost : Nat := 100000 * 50 * 10 ^ 9

/-- Internal `_executeVerdict`: marks the bounty `Completed`, stores the
partial percentage, and pays out per verdict branch, emitting
`FundsReleased`. -/
def executeVerdict (s : State) (i : Nat) (v : Verdict) (pct : Nat) :
    Except String State := do
  let b := getBounty s i
  let s0 := setBounty s i { b with status := .Completed, partPct := pct }
  let pay ←
    match v with
    | .Pass => do
        let workerAmount ← csub b.amount b.feeAmount
        let s1 ← transferFunds s0 b.worker b.token workerAmount
        let s2 ← transferFunds s1 s.treasury b.token b.feeAmount
        pure (s2, workerAmount)
    | .Fail => do
        let gasCost := estimateGasCost
        let returnAmount := if gasCost < b.amount then b.amount - gasCost else 0
        let s1 ← transferFunds s0 b.poster b.token returnAmount
        let s2 ← if gasCost < b.amount then
            transferFunds s1 s.treasury b.token gasCost
          else pure s1
        pure (s2, 0)
    | .Part => do
        let _ ← require (0 < pct ∧ pct < 100) "Invalid partial"
        let partAmount := b.amount * pct / 100
        let partFee := partAmount * FEE_BASIS_POINTS / BASIS_POINTS_DENOMINATOR
        let workerAmount ← csub partAmount partFee
        let posterReturn ← csub b.amount partAmount
        let s1 ← transferFunds s0 b.worker b.token workerAmount
        let s2 ← transferFunds s1 b.poster b.token posterReturn
        let s3 ← transferFunds s2 s.treasury b.token partFee
        pure (s3, workerAmount)
    | .NoneV => pure (s0, 0)
  pure { pay.1 with
         events := .FundsReleased i v pay.2 b.feeAmount :: pay.1.events }

/-- Internal `_initiateDispute`: marks the bounty `Disputed`, records the
dispute, emits `DisputeInitiated`; moves no funds. -/
def initiateDispute (s : State) (i now : Nat) : State :=
  let b := getBounty s i
  let s1 := setBounty s i { b with status := .Disputed }
  let d : Dispute :=
    { bountyId := i, createdAt := now
      arbitrationDeadline := now + DISPUTE_WINDOW, arbitrator := 0
      resolved := false, finalVerdict := .NoneV, finalPartPct := 0 }
  { s1 with disputes := setA s1.disputes i d
            events := .DisputeInitiated i i (now + DISPUTE_WINDOW) :: s1.events }

/-- Vote tally accumulated by `processVerdict`'s counting loop. -/
structure Tally where
  passCount : Nat
  failCount : Nat
  partCount : Nat
  totalPartPct : Nat
deriving DecidableEq, Repr

/-- The counting loop of `processVerdict`: one pass over the panel judges,
counting only revealed verdicts. -/
def tally (p : JudgePanel) : Tally :=
  p.judges.foldl
    (fun t j =>
      if getA p.hasRevealed j false then
        match getA p.verdicts j .NoneV with
        | .Pass => { t with passCount := t.passCount + 1 }
        | .Fail => { t with failCount := t.failCount + 1 }
        | .Part => { t with partCount := t.partCount + 1
                            totalPartPct := t.totalPartPct + getA p.partPcts j 0 }
        | .NoneV => t
      else t)
    { passCount := 0, failCount := 0, partCount := 0, totalPartPct := 0 }

/-- `processVerdict` of EscrowJudge.sol: tally revealed votes after the
reveal deadline; a verdict class reaching `SUPERMAJORITY_THRESHOLD` (4) is
executed, otherwise the case escalates to a dispute. -/
def processVerdict (s : State) (i now : Nat) : Except String State := do
  let _ ← require (i < s.nextBountyId) "Invalid bounty ID"
  let _ ← require (¬ s.paused) "Pausable: paused"
  let b := getBounty s i
  let p := getPanel s i
  let _ ← require (b.status = .Reveal) "Not in reveal phase"
  let _ ← require (p.revealDeadline < now) "Reveal phase not ended"
  let t := tally p
  let revealedCount := t.passCount + t.failCount + t.partCount
  let _ ← require (0 < revealedCount) "No verdicts revealed"
  if SUPERMAJORITY_THRESHOLD ≤ t.passCount then
    executeVerdict s i .Pass 0
  else if SUPERMAJORITY_THRESHOLD ≤ t.failCount then
    executeVerdict s i .Fail 0
  else if SUPERMAJORITY_THRESHOLD ≤ t.partCount then
    executeVerdict s i .Part (t.totalPartPct / t.partCount)
  else
    pure (initiateDispute s i now)

/-- `recordVerdict` of EscrowJudge.sol (called by the CommitReveal
contract). -/
def recordVerdict (s : State) (caller i judge : Nat) (v : Verdict)
    (pct : Nat) : Except String State := do
  let _ ← require (i < s.nextBountyId) "Invalid bounty ID"
  let _ ← require (caller = s.commitRevealAddr) "Only commit reveal"
  let _ ← require (v ≠ .NoneV) "Invalid verdict"
  let p := getPanel s i
  let _ ← require (judge ∈ p.judges) "Not a panel judge"
  let p1 := { p with verdicts := setA p.verdicts judge v
                     partPcts := setA p.partPcts judge pct
                     hasRevealed := setA p.hasRevealed judge true }
  let allRevealed := p1.judges.all fun j => getA p1.hasRevealed j false
  let s1 := setPanel s i p1
  if allRevealed then
    let s2 := setPanel s1 i { p1 with revealPhaseComplete := true }
    let b := getBounty s2 i
    pure (setBounty s2 i { b with status := .Reveal })
  else
    pure s1

/-- `endCommitPhase` of EscrowJudge.sol: deadline-gated transition from
`Judging` to `Reveal`, callable by anyone. -/
def endCommitPhase (s : State) (i now : Nat) : Except String State := do
  let _ ← require (i < s.nextBountyId) "Invalid bounty ID"
  let _ ← require (¬ s.paused) "Pausable: paused"
  let b := getBounty s i
  let p := getPanel s i
  let _ ← require (b.status = .Judging) "Not in judging phase"
  let _ ← require (p.commitDeadline < now) "Commit phase not ended"
  pure (setBounty s i { b with status := .Reveal })

/-- `assignJudges` of EscrowJudge.sol: the caller must be the stored
judge-registry reference; appends the judges to the panel, sets the two
24-hour deadlines, and moves the bounty to `Judging`. -/
def assignJudges (s : State) (caller i : Nat) (newJudges : List Nat)
    (now : Nat) : Except String State := do
  let _ ← require (i < s.nextBountyId) "Invalid bounty ID"
  let _ ← require (¬ s.paused) "Pausable: paused"
  let _ ← require (caller = s.judgeRegistryAddr) "Only judge registry"
  let _ ← require (newJudges.length = MIN_JUDGES) "Must assign 5 judges"
  let b := getBounty s i
  let _ ← require (b.status = .Submitted) "Invalid status"
  let p := getPanel s i
  let p1 := { p with judges := p.judges ++ newJudges
                     commitDeadline := now + 86400
                     revealDeadline := now + 86400 + 86400 }
  let s1 := setPanel s i p1
  pure (setBounty s1 i { b with status := .Judging
                                judgeDeadline := now + 86400 + 86400 })

/-- Sum of the amounts in a transfer log. -/
def transferSum (l : List (Nat × Nat × Nat)) : Nat :=
  (l.map fun t => t.2.2).sum

/-- Net amount paid out by a settlement call, `none` when the call
reverted. -/
def settleSum (r : Except String State) (old : State) : Option Nat :=
  match r with
  | .ok s1 => some (transferSum s1.transfers - transferSum old.transfers)
  | .error _ => none

/-- Result state of a successful call, the pre-state when the call
reverted. -/
def okState (r : Except String State) (old : State) : State :=
  r.toOption.getD old

/-- A settled-ready escrow state: bounty 0 holds 1000 USDC (6 decimals) with
the 2% fee recorded at creation, poster 10, worker 11, treasury 9, a
5-judge panel in `Reveal` past its deadline. -/
def escBase : State :=
  { treasury := 9, nextBountyId := 1
    bounties := [(0,
      { poster := 10, worker := 11, token := 20, amount := 1000 * 10 ^ 6
        createdAt := 0, deadline := 1000, judgeDeadline := 200000
        status := .Reveal, requirementsHash := 5, submissionHash := 6
        partPct := 0
        feeAmount := 1000 * 10 ^ 6 * FEE_BASIS_POINTS / BASIS_POINTS_DENOMINATOR })]
    panels := [(0,
      { judges := [1, 2, 3, 4, 5], commitDeadline := 100000
        revealDeadline := 200000
        commitPhaseComplete := false, revealPhaseComplete := false
        hasCommitted := [(1, true), (2, true), (3, true), (4, true), (5, true)]
        hasRevealed := [(1, true), (2, true), (3, true), (4, true), (5, true)]
        verdicts := [(1, .Pass), (2, .Pass), (3, .Pass), (4, .Pass), (5, .Fail)]
        partPcts := [] })]
    disputes := [], judgeRegistryAddr := 30, commitRevealAddr := 40
    ownerAddr := 99, paused := false, transfers := [], events := [] }

/-- `escBase` with the five revealed verdicts changed to 3 Pass / 2 Fail. -/
def escSplit : State :=
  { escBase with
    panels := [(0,
      { getPanel escBase 0 with
        verdicts := [(1, .Pass), (2, .Pass), (3, .Pass), (4, .Fail), (5, .Fail)] })] }

end EscrowJudge

/-! ## CommitReveal (src/contracts/CommitReveal.sol) -/

namespace CommitReveal

def NO_REVEAL_PENALTY : Nat := 5

/-- The `Commit` struct (`exists0` is the source's `exists` flag). -/
structure Commit0 where
  commitHash : Nat
  timestamp : Nat
  exists0 : Bool
deriving DecidableEq, Repr

def defaultCommit : Commit0 := { commitHash := 0, timestamp := 0, exists0 := false }

/-- The `Reveal` struct. -/
structure Reveal0 where
  verdict : EscrowJudge.Verdict
  partPct : Nat
  salt : Nat
  exists0 : Bool
deriving DecidableEq, Repr

def defaultReveal : Reveal0 :=
  { verdict := .NoneV, partPct := 0, salt := 0, exists0 := false }

/-- The `BountyCommits` struct. -/
structure BountyCommits where
  commits : List (Nat × Commit0)
  reveals : List (Nat × Reveal0)
  commitCount : Nat
  revealCount : Nat
  commitPhaseActive : Bool
  revealPhaseActive : Bool
deriving DecidableEq, Repr

def defaultBC : BountyCommits :=
  { commits := [], reveals := [], commitCount := 0, revealCount := 0
    commitPhaseActive := false, revealPhaseActive := false }

/-- Contract storage of CommitReveal. -/
structure State where
  escrowJudgeAddr : Nat
  bountyCommits : List (Nat × BountyCommits)
  ownerAddr : Nat
  paused : Bool
deriving DecidableEq, Repr

def getBC (s : State) (i : Nat) : BountyCommits :=
  getA s.bountyCommits i defaultBC

def setBC (s : State) (i : Nat) (bc : BountyCommits) : State :=
  { s with bountyCommits := setA s.bountyCommits i bc }

end CommitReveal

/-- Combined deployment of the EscrowJudge and CommitReveal contracts:
`crAddr` is the on-chain address of the CommitReveal contract (the
`msg.sender` EscrowJudge observes when CommitReveal calls into it). -/
structure World where
  escrow : EscrowJudge.State
  cr : CommitReveal.State
  crAddr : Nat
deriving DecidableEq, Repr

namespace CommitReveal

/-- Internal `_checkAllCommitted`: once `commitCount` reaches the panel
size, flips the local phase flags and calls `escrowJudge.endCommitPhase`
(any revert of that call bubbles up and reverts the whole transaction). -/
def checkAllCommitted (w : World) (i now : Nat) : Except String World := do
  let bc := getBC w.cr i
  let judges := EscrowJudge.getPanelJudges w.escrow i
  if judges.length ≤ bc.commitCount then
    let cr1 := setBC w.cr i
      { bc with commitPhaseActive := false, revealPhaseActive := true }
    let esc1 ← EscrowJudge.endCommitPhase w.escrow i now
    pure { w with cr := cr1, escrow := esc1 }
  else
    pure w

/-- `submitCommit` of CommitReveal.sol.  `caller` is `msg.sender`. -/
def submitCommit (w : World) (caller i commitHash now : Nat) :
    Except String World := do
  let _ ← require (¬ w.cr.paused) "Pausable: paused"
  let _ ← require (w.cr.escrowJudgeAddr ≠ 0) "EscrowJudge not set"
  let _ ← require (commitHash ≠ 0) "Invalid commit"
  let b := EscrowJudge.getBounty w.escrow i
  let _ ← require (b.status = .Judging) "Not in judging phase"
  let _ ← require (caller ∈ EscrowJudge.getPanelJudges w.escrow i)
    "Not a panel judge"
  let bc := getBC w.cr i
  let _ ← require (¬ (getA bc.commits caller defaultCommit).exists0)
    "Already committed"
  let bc1 := { bc with
    commits := setA bc.commits caller
      { commitHash := commitHash, timestamp := now, exists0 := true }
    commitCount := bc.commitCount + 1 }
  checkAllCommitted { w with cr := setBC w.cr i bc1 } i now

/-- Internal `_checkAllRevealed` (local bookkeeping only). -/
def checkAllRevealed (w : World) (i : Nat) : World :=
  let bc := getBC w.cr i
  let judges := EscrowJudge.getPanelJudges w.escrow i
  if judges.length ≤ bc.revealCount then
    { w with cr := setBC w.cr i { bc with revealPhaseActive := false } }
  else w

/-- `revealVerdict` of CommitReveal.sol.  `hashFn` stands for
`keccak256(abi.encodePacked(verdict, percentage, salt))`; the contract
recomputes it from the supplied triple and compares it with the stored
commitment. -/
def revealVerdict (w : World)
    (hashFn : EscrowJudge.Verdict → Nat → Nat → Nat)
    (caller i : Nat) (v : EscrowJudge.Verdict) (pct salt : Nat) :
    Except String World := do
  let _ ← require (¬ w.cr.paused) "Pausable: paused"
  let _ ← require (v ≠ .NoneV) "Invalid verdict"
  let _ ← require (pct ≤ 100) "Invalid percentage"
  let b := EscrowJudge.getBounty w.escrow i
  let _ ← require (b.status = .Reveal) "Not in reveal phase"
  let _ ← require (caller ∈ EscrowJudge.getPanelJudges w.escrow i)
    "Not a panel judge"
  let bc := getBC w.cr i
  let _ ← require ((getA bc.commits caller defaultCommit).exists0)
    "No commit found"
  let _ ← require (¬ (getA bc.reveals caller defaultReveal).exists0)
    "Already revealed"
  let _ ← require
    (hashFn v pct salt = (getA bc.commits caller defaultCommit).commitHash)
    "Commit mismatch"
  let bc1 := { bc with
    reveals := setA bc.reveals caller
      { verdict := v, partPct := pct, salt := salt, exists0 := true }
    revealCount := bc.revealCount + 1 }
  let w1 : World := { w with cr := setBC w.cr i bc1 }
  let esc1 ← EscrowJudge.recordVerdict w1.escrow w.crAddr i caller v pct
  pure (checkAllRevealed { w1 with escrow := esc1 } i)

/-- `penalizeNoReveal` of CommitReveal.sol: owner-only; after the reveal
deadline (the bounty's `judgeDeadline`, the 7th component of the
`bounties(...)` tuple the source destructures as `revealDeadline`) records a
synthetic Fail vote for a committed non-revealer. -/
def penalizeNoReveal (w : World) (caller i judge now : Nat) :
    Except String World := do
  let _ ← require (caller = w.cr.ownerAddr) "OwnableUnauthorizedAccount"
  let bc := getBC w.cr i
  let _ ← require ((getA bc.commits judge defaultCommit).exists0)
    "No commit found"
  let _ ← require (¬ (getA bc.reveals judge defaultReveal).exists0)
    "Already revealed"
  let b := EscrowJudge.getBounty w.escrow i
  let _ ← require (b.status = .Reveal) "Not in reveal phase"
  let _ ← require (b.judgeDeadline < now) "Reveal phase not ended"
  let bc1 := { bc with
    reveals := setA bc.reveals judge
      { verdict := .Fail, partPct := 0, salt := 0, exists0 := true }
    revealCount := bc.revealCount + 1 }
  let w1 : World := { w with cr := setBC w.cr i bc1 }
  let esc1 ← EscrowJudge.recordVerdict w1.escrow w.crAddr i judge .Fail 0
  pure { w1 with escrow := esc1 }

/-- `escBase` moved back to the `Judging` status (commit phase open,
deadline 100000). -/
def escJudging : EscrowJudge.State :=
  EscrowJudge.setBounty EscrowJudge.escBase 0
    { EscrowJudge.getBounty EscrowJudge.escBase 0 with status := .Judging }

/-- CommitReveal storage in which panel judges 1-4 of bounty 0 have already
committed (judge 5 has not). -/
def crFour : State :=
  { escrowJudgeAddr := 21
    bountyCommits := [(0,
      { commits := [(1, { commitHash := 11, timestamp := 1, exists0 := true }),
                    (2, { commitHash := 12, timestamp := 1, exists0 := true }),
                    (3, { commitHash := 13, timestamp := 1, exists0 := true }),
                    (4, { commitHash := 14, timestamp := 1, exists0 := true })]
        reveals := [], commitCount := 4, revealCount := 0
        commitPhaseActive := true, revealPhaseActive := false })]
    ownerAddr := 99, paused := false }

/-- World in which the 5th and last panel judge of bounty 0 is about to
commit. -/
def wCommit : World := { escrow := escJudging, cr := crFour, crAddr := 40 }

/-- Index encoding of a verdict (used by the concrete witness hash). -/
def vIdx : EscrowJudge.Verdict → Nat
  | .NoneV => 0 | .Pass => 1 | .Part => 2 | .Fail => 3

/-- A concrete injective commitment-hash function standing in for keccak256
in witnesses. -/
def hf (v : EscrowJudge.Verdict) (pct salt : Nat) : Nat :=
  vIdx v * 1000000 + pct * 1000 + salt

/-- CommitReveal storage in which judge 1 of bounty 0 committed to
`hf Pass 0 5 = 1000005` and nobody revealed yet. -/
def crCommitted : State :=
  { escrowJudgeAddr := 21
    bountyCommits := [(0,
      { commits := [(1, { commitHash := 1000005, timestamp := 1, exists0 := true })]
        reveals := [], commitCount := 1, revealCount := 0
        commitPhaseActive := false, revealPhaseActive := true })]
    ownerAddr := 99, paused := false }

/-- World in the reveal phase of bounty 0 with judge 1's commitment
stored. -/
def wReveal : World := { escrow := EscrowJudge.escBase, cr := crCommitted, crAddr := 40 }

end CommitReveal

/-! ## JudgeSelection (src/unnamed/part_009) -/

/-- Generic mapping lookup with a default (pair-keyed Solidity mappings). -/
def getM {κ α : Type} [DecidableEq κ] (m : List (κ × α)) (k : κ) (d : α) : α :=
  match m with
  | [] => d
  | (k0, v0) :: t => if k = k0 then v0 else getM t k d

/-- Generic mapping update. -/
def setM {κ α : Type} [DecidableEq κ] (m : List (κ × α)) (k : κ) (v : α) :
    List (κ × α) :=
  match m with
  | [] => [(k, v)]
  | (k0, v0) :: t => if k = k0 then (k, v) :: t else (k0, v0) :: setM t k v

namespace JudgeSelection

def PANEL_SIZE : Nat := 5
def EXPANDED_PANEL_SIZE : Nat := 9
def MAX_AGREEMENT_RATE : Nat := 90

/-- The `HistoricalAgreement` struct. -/
structure HistoricalAgreement where
  agreements : Nat
  totalCases : Nat
deriving DecidableEq, Repr

def defaultHA : HistoricalAgreement := { agreements := 0, totalCases := 0 }

/-- Contract storage of JudgeSelection.  `pairHistory` is the nested
`judgePairHistory` mapping keyed by (first, second) address; `served` is
`judgeServedOnBounty` keyed by (judge, bountyId). -/
structure State where
  judgeRegistryAddr : Nat
  escrowJudgeAddr : Nat
  pairHistory : List ((Nat × Nat) × HistoricalAgreement)
  served : List ((Nat × Nat) × Bool)
  posterBounties : List (Nat × List Nat)
  workerBounties : List (Nat × List Nat)
  ownerAddr : Nat
  paused : Bool
deriving DecidableEq, Repr

def getPair (s : State) (a b : Nat) : HistoricalAgreement :=
  getM s.pairHistory (a, b) defaultHA

/-- Internal `_hasConflict`: the candidate may be neither the poster nor the
worker (the two further checks in the source are comments only). -/
def hasConflict (cand poster worker : Nat) : Bool :=
  cand == poster || cand == worker

/-- The per-pair anti-collusion condition inside `_formsFriendlyPanel`:
at least 3 co-served cases and an (integer, floor-divided) agreement
percentage strictly above `MAX_AGREEMENT_RATE`. -/
def isFriendlyPair (s : State) (a b : Nat) : Bool :=
  let ha := getPair s a b
  if 3 ≤ ha.totalCases then
    if MAX_AGREEMENT_RATE < ha.agreements * 100 / ha.totalCases then true
    else false
  else false

/-- Internal `_formsFriendlyPanel`: the candidate is too friendly with some
already-selected member. -/
def formsFriendlyPanel (s : State) (cand : Nat) (selected : List Nat) : Bool :=
  selected.any fun ex => isFriendlyPair s cand ex

/-- The cumulative-weight scan of `_weightedRandomSelection`: return the
first entry whose cumulative weight exceeds the target, else the
fallback (`_eligible[0]`). -/
def pickWeighted (elig ws : List Nat) (target fb : Nat) : Nat :=
  match elig, ws with
  | e :: es, w :: rest =>
      if target < w then e else pickWeighted es rest (target - w) fb
  | _, _ => fb

/-- Internal `_weightedRandomSelection`: reputation-weighted draw over the
eligible pool, zero-weighting already-selected entries.  `rand seed attempt`
stands for `uint256(keccak256(abi.encodePacked(seed, attempt)))`. -/
def weightedRandomSelection (reg : JudgeRegistry.State)
    (elig selected : List Nat) (seed attempt : Nat)
    (rand : Nat → Nat → Nat) : Except String Nat :=
  let ws := elig.map fun j =>
    if j ∈ selected then 0 else JudgeRegistry.getReputation reg j
  let totalWeight := ws.sum
  if totalWeight = 0 then .error "No valid candidates"
  else
    .ok (pickWeighted elig ws (rand seed attempt % totalWeight) (elig.headD 0))

/-- The selection loop of `selectJudges`; `fuel` is the remaining attempt
budget (`maxAttempts - attempts`), `attempt` the attempts made so far. -/
def selectLoop (reg : JudgeRegistry.State) (elig : List Nat)
    (poster worker seed bountyId : Nat) (rand : Nat → Nat → Nat) :
    Nat → Nat → List Nat → State → Except String (List Nat × State)
  | 0, _, selected, sel => .ok (selected, sel)
  | fuel + 1, attempt, selected, sel =>
    if selected.length < PANEL_SIZE then
      match weightedRandomSelection reg elig selected seed (attempt + 1) rand with
      | .error e => .error e
      | .ok cand =>
        if cand ∈ selected then
          selectLoop reg elig poster worker seed bountyId rand fuel
            (attempt + 1) selected sel
        else if hasConflict cand poster worker then
          selectLoop reg elig poster worker seed bountyId rand fuel
            (attempt + 1) selected sel
        else if formsFriendlyPanel sel cand selected then
          selectLoop reg elig poster worker seed bountyId rand fuel
            (attempt + 1) selected sel
        else
          selectLoop reg elig poster worker seed bountyId rand fuel
            (attempt + 1) (selected ++ [cand])
            { sel with served := setM sel.served (cand, bountyId) true }
    else .ok (selected, sel)

end JudgeSelection

/-- Combined deployment of JudgeRegistry, EscrowJudge and JudgeSelection:
`selAddr` is the on-chain address of the JudgeSelection contract (the
`msg.sender` EscrowJudge observes when JudgeSelection calls
`assignJudges`). -/
structure SelWorld where
  reg : JudgeRegistry.State
  escrow : EscrowJudge.State
  sel : JudgeSelection.State
  selAddr : Nat
deriving DecidableEq, Repr

namespace JudgeSelection

/-- `selectJudges` of JudgeSelection.sol: owner-only; draws a 5-member
panel from the eligible pool with conflict and anti-collusion skips, then
hands it to `escrowJudge.assignJudges`. -/
def selectJudges (w : SelWorld) (caller bountyId seed now : Nat)
    (rand : Nat → Nat → Nat) : Except String SelWorld := do
  let _ ← require (caller = w.sel.ownerAddr) "OwnableUnauthorizedAccount"
  let _ ← require (¬ w.sel.paused) "Pausable: paused"
  let _ ← require (w.sel.judgeRegistryAddr ≠ 0) "Contracts not set"
  let elig := JudgeRegistry.getEligibleJudges w.reg
  let _ ← require (PANEL_SIZE ≤ elig.length) "Insufficient eligible judges"
  let b := EscrowJudge.getBounty w.escrow bountyId
  let _ ← require (b.status = .Submitted) "Invalid bounty status"
  let r ← selectLoop w.reg elig b.poster b.worker seed bountyId rand
      (elig.length * 2) 0 [] w.sel
  let _ ← require (r.1.length = PANEL_SIZE) "Could not form panel"
  let sel1 := { r.2 with
    posterBounties :=
      (setA r.2.posterBounties b.poster
        (getA r.2.posterBounties b.poster [] ++ [bountyId])) }
  let sel2 := if b.worker ≠ 0 then
      { sel1 with workerBounties :=
          (setA sel1.workerBounties b.worker
            (getA sel1.workerBounties b.worker [] ++ [bountyId])) }
    else sel1
  let esc1 ← EscrowJudge.assignJudges w.escrow w.selAddr bountyId r.1 now
  pure { w with sel := sel2, escrow := esc1 }

/-- The selection loop of `expandPanel` (draws the additional members,
excluding the current panel as well). -/
def expandLoop (reg : JudgeRegistry.State) (elig currentJudges : List Nat)
    (poster worker seed bountyId needed : Nat) (rand : Nat → Nat → Nat) :
    Nat → Nat → List Nat → State → Except String (List Nat × State)
  | 0, _, additional, sel => .ok (additional, sel)
  | fuel + 1, attempt, additional, sel =>
    if additional.length < needed then
      match weightedRandomSelection reg elig additional seed (attempt + 1) rand with
      | .error e => .error e
      | .ok cand =>
        if cand ∈ currentJudges then
          expandLoop reg elig currentJudges poster worker seed bountyId needed
            rand fuel (attempt + 1) additional sel
        else if cand ∈ additional then
          expandLoop reg elig currentJudges poster worker seed bountyId needed
            rand fuel (attempt + 1) additional sel
        else if hasConflict cand poster worker then
          expandLoop reg elig currentJudges poster worker seed bountyId needed
            rand fuel (attempt + 1) additional sel
        else if formsFriendlyPanel sel cand currentJudges
            || formsFriendlyPanel sel cand additional then
          expandLoop reg elig currentJudges poster worker seed bountyId needed
            rand fuel (attempt + 1) additional sel
        else
          expandLoop reg elig currentJudges poster worker seed bountyId needed
            rand fuel (attempt + 1) (additional ++ [cand])
            { sel with served := setM sel.served (cand, bountyId) true }
    else .ok (additional, sel)

/-- `expandPanel` of JudgeSelection.sol: for a disputed bounty with a
standard 5-member panel, draws `EXPANDED_PANEL_SIZE - PANEL_SIZE`
additional members and then only emits `PanelExpanded` — the comment says
"EscrowJudge will handle combining panels", but no EscrowJudge call is
made, so the escrow state is returned untouched. -/
def expandPanel (w : SelWorld) (caller bountyId seed : Nat)
    (rand : Nat → Nat → Nat) : Except String SelWorld := do
  let _ ← require (caller = w.sel.ownerAddr) "OwnableUnauthorizedAccount"
  let _ ← require (¬ w.sel.paused) "Pausable: paused"
  let _ ← require (w.sel.judgeRegistryAddr ≠ 0) "Contracts not set"
  let currentJudges := EscrowJudge.getPanelJudges w.escrow bountyId
  let _ ← require (currentJudges.length = PANEL_SIZE) "Invalid current panel"
  let elig := JudgeRegistry.getEligibleJudges w.reg
  let _ ← require (EXPANDED_PANEL_SIZE ≤ elig.length)
    "Insufficient judges for expansion"
  let b := EscrowJudge.getBounty w.escrow bountyId
  let _ ← require (b.status = .Disputed) "Bounty not disputed"
  let r ← expandLoop w.reg elig currentJudges b.poster b.worker seed bountyId
      (EXPANDED_PANEL_SIZE - PANEL_SIZE) rand (elig.length * 2) 0 [] w.sel
  let _ ← require (r.1.length = EXPANDED_PANEL_SIZE - PANEL_SIZE)
    "Could not expand panel"
  pure { w with sel := r.2 }

/-- Registry with judges 1..5 registered, active, reputation 500. -/
def regFive : JudgeRegistry.State :=
  { judges := [(1, JudgeRegistry.mkJudge 1 500), (2, JudgeRegistry.mkJudge 2 500),
               (3, JudgeRegistry.mkJudge 3 500), (4, JudgeRegistry.mkJudge 4 500),
               (5, JudgeRegistry.mkJudge 5 500)]
    judgeList := [1, 2, 3, 4, 5], totalActiveJudges := 5
    escrowJudge := 21, ownerAddr := 9, paused := false, transfersOut := [] }

/-- Registry with judges 1..9 registered, active, reputation 500. -/
def regNine : JudgeRegistry.State :=
  { regFive with
    judges := regFive.judges ++
      [(6, JudgeRegistry.mkJudge 6 500), (7, JudgeRegistry.mkJudge 7 500),
       (8, JudgeRegistry.mkJudge 8 500), (9, JudgeRegistry.mkJudge 9 500)]
    judgeList := [1, 2, 3, 4, 5, 6, 7, 8, 9], totalActiveJudges := 9 }

/-- Escrow with bounty 0 in `Submitted` status, no panel yet, wired so that
the JudgeSelection contract (address 77) passes the `assignJudges` caller
check. -/
def escSubmitted : EscrowJudge.State :=
  { EscrowJudge.escBase with
    bounties := [(0, { EscrowJudge.getBounty EscrowJudge.escBase 0 with
                       status := .Submitted })]
    panels := [], judgeRegistryAddr := 77 }

/-- Fresh JudgeSelection storage (owner 99), no histories. -/
def selClean : State :=
  { judgeRegistryAddr := 30, escrowJudgeAddr := 21, pairHistory := []
    served := [], posterBounties := [], workerBounties := []
    ownerAddr := 99, paused := false }

/-- Deployment ready for a panel selection on bounty 0. -/
def wSel : SelWorld :=
  { reg := regFive, escrow := escSubmitted, sel := selClean, selAddr := 77 }

/-- `selClean` with a recorded pair history for judges 1 and 2 of 10
agreements in 11 co-served cases (exact agreement ratio 10/11 = 90.9...%;
floor-divided integer rate 90). -/
def selNarrowPair : State :=
  { selClean with
    pairHistory := [((1, 2), { agreements := 10, totalCases := 11 }),
                    ((2, 1), { agreements := 10, totalCases := 11 })] }

/-- `wSel` with the 10-of-11 pair history between judges 1 and 2. -/
def wSelPair : SelWorld := { wSel with sel := selNarrowPair }

/-- Escrow with bounty 0 `Disputed` after a 5-member panel was assigned. -/
def escDisputed : EscrowJudge.State :=
  { EscrowJudge.escBase with
    bounties := [(0, { EscrowJudge.getBounty EscrowJudge.escBase 0 with
                       status := .Disputed })] }

/-- Deployment ready for a panel expansion on disputed bounty 0 (9 eligible
judges, 5 of them on the current panel). -/
def wDisputed : SelWorld :=
  { reg := regNine, escrow := escDisputed, sel := selClean, selAddr := 77 }

/-- `selClean` with a 10-of-10 (100%) agreement history between judges 1
and 2 — a friendly pair by the contract's own rule. -/
def selFriendly : State :=
  { selClean with
    pairHistory := [((1, 2), { agreements := 10, totalCases := 10 }),
                    ((2, 1), { agreements := 10, totalCases := 10 })] }

/-- Deployment with 9 eligible judges and the truly friendly pair (1, 2). -/
def wSelNine : SelWorld :=
  { reg := regNine, escrow := escSubmitted, sel := selFriendly, selAddr := 77 }

/-- Result of the concrete panel selection on `wSel`. -/
def wSelOut : SelWorld :=
  okD (selectJudges wSel 99 0 0 500 (fun _ _ => 0)) wSel

/-- Result of the concrete panel selection on `wSelNine`. -/
def wSelNineOut : SelWorld :=
  okD (selectJudges wSelNine 99 0 0 500 (fun _ a => 500 * a)) wSelNine

/-- Result of the concrete panel selection on `wSelPair` (the 10-of-11
near-friendly pair). -/
def wSelPairOut : SelWorld :=
  okD (selectJudges wSelPair 99 0 0 500 (fun _ _ => 0)) wSelPair

end JudgeSelection

/-- Result of processing the 4-Pass/1-Fail verdicts of `escBase` after the
reveal deadline. -/
def EscrowJudge.escPVOut : EscrowJudge.State :=
  okD (EscrowJudge.processVerdict EscrowJudge.escBase 0 300000) EscrowJudge.escBase

namespace JudgeRegistry

/-- C4: `recordVerdictResult(judge, false)` does NOT tolerate every reputation
in [0, 1000].  For a registered judge with reputation 10 the guarded branch
`reputation > MIN_REPUTATION` is taken and the argument `reputation - 20` of
`_max` underflows under Solidity 0.8 checked arithmetic, so the call reverts
instead of flooring the reputation at 0 (the code's own comment says
"Decrease reputation (-20, min 0)").  For reputation 25 the call succeeds and
stores max(25-20, 0) = 5, confirming the decrement-and-floor everywhere the
subtraction does not underflow. -/
theorem recordVerdictResult_underflows_at_low_reputation :
    recordVerdictResult regLowRep 50 1 false 1000 = .error "arithmetic underflow"
    ∧ (recordVerdictResult regMidRep 50 1 false 1000).map
        (fun s => ((getJudge s 1).reputation, (getJudge s 1).isActive))
      = .ok (5, false) := by
  constructor <;> rfl

/-- C5: an active judge withdrawing their full (minimum) stake is REJECTED by
`require(stakedAmount - amount >= MINIMUM_STAKE)` rather than auto-deactivated
— the auto-deactivate branch after the transfer is unreachable for active
judges.  A withdrawal that keeps the stake at or above the minimum succeeds
and leaves the judge active. -/
theorem withdrawStake_rejects_below_minimum_while_active :
    withdrawStake regMinStake 1 MINIMUM_STAKE = .error "Cannot go below minimum stake"
    ∧ (withdrawStake regBigStake 1 (10 * 10 ^ 6)).map
        (fun s => ((getJudge s 1).stakedAmount, (getJudge s 1).isActive))
      = .ok (MINIMUM_STAKE, true) := by
  constructor <;> rfl

end JudgeRegistry

theorem ebind_ok {α β : Type} (a : α) (f : α → Except String β) :
    (Except.ok a >>= f) = f a := rfl

theorem ebind_err {α β : Type} (e : String) (f : α → Except String β) :
    ((Except.error e : Except String α) >>= f) = .error e := rfl

theorem epure {α : Type} (a : α) : (pure a : Except String α) = .ok a := rfl

theorem require_true {c : Prop} [Decidable c] {msg : String} (h : c) :
    require c msg = .ok () := by
  simp [require, h]

theorem require_false {c : Prop} [Decidable c] {msg : String} (h : ¬ c) :
    require c msg = .error msg := by
  simp [require, h]

theorem require_elim {c : Prop} [Decidable c] {msg : String} {u : Unit}
    (h : require c msg = .ok u) : c := by
  by_cases hc : c
  · exact hc
  · simp [require, hc] at h

theorem csub_ok {a b : Nat} (h : b ≤ a) : csub a b = .ok (a - b) := by
  simp [csub, h]

theorem csub_elim {a b r : Nat} (h : csub a b = .ok r) : b ≤ a ∧ r = a - b := by
  by_cases hc : b ≤ a
  · refine ⟨hc, ?_⟩
    simp [csub, hc] at h
    omega
  · simp [csub, hc] at h

theorem getA_setA {α : Type} (m : List (Nat × α)) (k : Nat) (v d : α) :
    getA (setA m k v) k d = v := by
  induction m with
  | nil => simp [getA, setA]
  | cons p t ih =>
    obtain ⟨k0, v0⟩ := p
    by_cases h : k = k0
    · simp [getA, setA, h]
    · simp [getA, setA, h, ih]

theorem require_bind_elim {α : Type} {c : Prop} [Decidable c] {msg : String}
    {f : Unit → Except String α} {r : α}
    (h : (require c msg >>= f) = .ok r) : c ∧ f () = .ok r := by
  by_cases hc : c
  · rw [require_true hc] at h
    exact ⟨hc, h⟩
  · rw [require_false hc] at h
    simp [ebind_err] at h

theorem bind_elim {α β : Type} {x : Except String α}
    {f : α → Except String β} {r : β}
    (h : (x >>= f) = .ok r) : ∃ a, x = .ok a ∧ f a = .ok r := by
  cases x with
  | ok a => exact ⟨a, rfl, h⟩
  | error e => simp [ebind_err] at h

namespace EscrowJudge

theorem transferFunds_elim {s s' : State} {d t a : Nat}
    (h : transferFunds s d t a = .ok s') :
    s' = { s with transfers := (d, t, a) :: s.transfers } := by
  unfold transferFunds at h
  by_cases hd : d ≠ 0
  · rw [require_true hd] at h
    simp only [Except.map, Except.ok.injEq] at h
    exact h.symm
  · rw [require_false hd] at h
    simp only [Except.map] at h
    exact absurd h (by simp)

theorem transferSum_cons (d t a : Nat) (l : List (Nat × Nat × Nat)) :
    transferSum ((d, t, a) :: l) = a + transferSum l := by
  simp [transferSum]

/-- C1: amended value-conservation statement.  For every successful
`_executeVerdict` settlement on verdict branches Pass, Fail and Partial, the
sum of the amounts transferred (worker payout + poster refund + fee/treasury
payout) equals the locked bounty amount — EXCEPT on the Fail branch when the
bounty amount does not exceed the hardcoded gas estimate
`100000 * 50 gwei = 5 * 10^15`: there nothing is paid out and the whole
amount stays in the contract.  The original claim asserts conservation for
every branch unconditionally; the Fail/small-amount corner refutes it (see
the counterexample theorem). -/
theorem executeVerdict_value_conservation
    (s : State) (i : Nat) (v : Verdict) (pct : Nat) (s' : State)
    (hv : v ≠ .NoneV)
    (h : executeVerdict s i v pct = .ok s') :
    transferSum s'.transfers
      = transferSum s.transfers
        + (if v = .Fail ∧ (getBounty s i).amount ≤ estimateGasCost
           then 0 else (getBounty s i).amount) := by
  cases v with
  | NoneV => exact absurd rfl hv
  | Pass =>
    simp only [executeVerdict] at h
    cases h1 : csub (getBounty s i).amount (getBounty s i).feeAmount with
    | error e => rw [h1] at h; simp [ebind_err] at h
    | ok wa =>
      rw [h1] at h
      obtain ⟨hle, hwa⟩ := csub_elim h1
      simp only [ebind_ok] at h
      cases h2 : transferFunds (setBounty s i
          { getBounty s i with status := .Completed, partPct := pct })
          (getBounty s i).worker (getBounty s i).token wa with
      | error e => rw [h2] at h; simp [ebind_err] at h
      | ok s1 =>
        rw [h2] at h
        simp only [ebind_ok] at h
        cases h3 : transferFunds s1 s.treasury (getBounty s i).token
            (getBounty s i).feeAmount with
        | error e => rw [h3] at h; simp [ebind_err] at h
        | ok s2 =>
          rw [h3] at h
          simp only [ebind_ok, epure, Except.ok.injEq] at h
          subst h
          rw [transferFunds_elim h3, transferFunds_elim h2]
          simp only [setBounty, transferSum_cons]
          simp only [reduceCtorEq, false_and, if_false]
          omega
  | Fail =>
    simp only [executeVerdict] at h
    by_cases hg : estimateGasCost < (getBounty s i).amount
    · simp only [if_pos hg] at h
      cases h2 : transferFunds (setBounty s i
          { getBounty s i with status := .Completed, partPct := pct })
          (getBounty s i).poster (getBounty s i).token
          ((getBounty s i).amount - estimateGasCost) with
      | error e => rw [h2] at h; simp [ebind_err] at h
      | ok s1 =>
        rw [h2] at h
        simp only [ebind_ok] at h
        cases h3 : transferFunds s1 s.treasury (getBounty s i).token
            estimateGasCost with
        | error e => rw [h3] at h; simp [ebind_err] at h
        | ok s2 =>
          rw [h3] at h
          simp only [ebind_ok, epure, Except.ok.injEq] at h
          subst h
          rw [transferFunds_elim h3, transferFunds_elim h2]
          simp only [setBounty, transferSum_cons]
          have : ¬ (getBounty s i).amount ≤ estimateGasCost := by omega
          simp only [this, and_false, if_false]
          omega
    · simp only [if_neg hg] at h
      cases h2 : transferFunds (setBounty s i
          { getBounty s i with status := .Completed, partPct := pct })
          (getBounty s i).poster (getBounty s i).token 0 with
      | error e => rw [h2] at h; simp [ebind_err] at h
      | ok s1 =>
        rw [h2] at h
        simp only [ebind_ok, epure, Except.ok.injEq] at h
        subst h
        rw [transferFunds_elim h2]
        simp only [setBounty, transferSum_cons]
        have : (getBounty s i).amount ≤ estimateGasCost := by omega
        simp only [this, and_true, if_pos]
        omega
  | Part =>
    simp only [executeVerdict] at h
    cases hr : require (0 < pct ∧ pct < 100) "Invalid partial" with
    | error e => rw [hr] at h; simp [ebind_err] at h
    | ok u =>
      rw [hr] at h
      simp only [ebind_ok] at h
      cases h1 : csub ((getBounty s i).amount * pct / 100)
          ((getBounty s i).amount * pct / 100 * FEE_BASIS_POINTS /
            BASIS_POINTS_DENOMINATOR) with
      | error e => rw [h1] at h; simp [ebind_err] at h
      | ok wa =>
        rw [h1] at h
        obtain ⟨hle1, hwa⟩ := csub_elim h1
        simp only [ebind_ok] at h
        cases h2 : csub (getBounty s i).amount
            ((getBounty s i).amount * pct / 100) with
        | error e => rw [h2] at h; simp [ebind_err] at h
        | ok pr =>
          rw [h2] at h
          obtain ⟨hle2, hpr⟩ := csub_elim h2
          simp only [ebind_ok] at h
          cases h3 : transferFunds (setBounty s i
              { getBounty s i with status := .Completed, partPct := pct })
              (getBounty s i).worker (getBounty s i).token wa with
          | error e => rw [h3] at h; simp [ebind_err] at h
          | ok s1 =>
            rw [h3] at h
            simp only [ebind_ok] at h
            cases h4 : transferFunds s1 (getBounty s i).poster
                (getBounty s i).token pr with
            | error e => rw [h4] at h; simp [ebind_err] at h
            | ok s2 =>
              rw [h4] at h
              simp only [ebind_ok] at h
              cases h5 : transferFunds s2 s.treasury (getBounty s i).token
                  ((getBounty s i).amount * pct / 100 * FEE_BASIS_POINTS /
                    BASIS_POINTS_DENOMINATOR) with
              | error e => rw [h5] at h; simp [ebind_err] at h
              | ok s3 =>
                rw [h5] at h
                simp only [ebind_ok, epure, Except.ok.injEq] at h
                subst h
                rw [transferFunds_elim h5, transferFunds_elim h4,
                    transferFunds_elim h3]
                simp only [setBounty, transferSum_cons]
                simp only [reduceCtorEq, false_and, if_false]
                omega

/-- C1 witness: the conservation theorem applied to a concrete Pass
settlement of the 1000-USDC bounty of `escBase`. -/
theorem executeVerdict_value_conservation_witness :
    transferSum (okState (executeVerdict escBase 0 .Pass 0) escBase).transfers
      = transferSum escBase.transfers
        + (if Verdict.Pass = .Fail ∧ (getBounty escBase 0).amount ≤ estimateGasCost
           then 0 else (getBounty escBase 0).amount) :=
  executeVerdict_value_conservation escBase 0 .Pass 0
    (okState (executeVerdict escBase 0 .Pass 0) escBase) (by decide) rfl

/-- C1 counterexample: on the Fail branch with a 1000-USDC bounty (amount
below the hardcoded 5*10^15-wei gas estimate) `_executeVerdict` succeeds but
pays out 0 in total — worker + poster + treasury receive nothing and the
locked amount is stranded, so the claimed exact conservation fails. -/
theorem executeVerdict_fail_pays_zero :
    settleSum (executeVerdict escBase 0 .Fail 0) escBase = some 0
    ∧ (getBounty escBase 0).amount = 1000 * 10 ^ 6
    ∧ (0 : Nat) ≠ 1000 * 10 ^ 6 :=
  ⟨rfl, rfl, by decide⟩

end EscrowJudge

namespace CommitReveal

theorem recordVerdict_isOk {s : EscrowJudge.State} {c i j : Nat}
    {v : EscrowJudge.Verdict} {pct : Nat}
    (h1 : i < s.nextBountyId) (h2 : c = s.commitRevealAddr)
    (h3 : v ≠ .NoneV) (h4 : j ∈ (EscrowJudge.getPanel s i).judges) :
    ∃ s1, EscrowJudge.recordVerdict s c i j v pct = .ok s1 := by
  unfold EscrowJudge.recordVerdict
  rw [require_true h1]
  simp only [ebind_ok]
  rw [require_true h2]
  simp only [ebind_ok]
  rw [require_true h3]
  simp only [ebind_ok]
  rw [require_true h4]
  simp only [ebind_ok]
  split
  · exact ⟨_, rfl⟩
  · exact ⟨_, rfl⟩

/-- C2: when the last remaining panel member submits a valid commitment
during `Judging`, the commit is accepted only AFTER the commit deadline: the
internal `_checkAllCommitted` calls `escrowJudge.endCommitPhase`, whose
`require(block.timestamp > commitDeadline)` reverts the entire
`submitCommit` transaction while the deadline has not passed ("Commit phase
not ended").  With the deadline passed, the same call succeeds and advances
the bounty to `Reveal`.  This refutes the claimed unconditional
all-committed auto-advance. -/
theorem submitCommit_last_commit_blocked_before_deadline :
    submitCommit wCommit 5 0 777 50000 = .error "Commit phase not ended"
    ∧ (submitCommit wCommit 5 0 777 150000).map
        (fun w => (EscrowJudge.getBounty w.escrow 0).status) = .ok .Reveal := by
  constructor <;> rfl

/-- C6: in the reveal phase, for a panel judge with a stored commitment
`H`, every reveal whose recomputed hash differs from `H` (including triples
differing only in the salt) is rejected with a revert — leaving all state,
in particular the stored commitment, unchanged — and a reveal with the
matching triple (valid verdict, percentage ≤ 100) succeeds on the same
pre-state, so a failed attempt can be retried. -/
theorem revealVerdict_mismatch_rejected_and_retryable
    (w : World) (hashFn : EscrowJudge.Verdict → Nat → Nat → Nat)
    (caller i H : Nat)
    (hp : w.cr.paused = false)
    (hst : (EscrowJudge.getBounty w.escrow i).status = .Reveal)
    (hj : caller ∈ EscrowJudge.getPanelJudges w.escrow i)
    (hc : (getA (getBC w.cr i).commits caller defaultCommit).exists0 = true)
    (hH : (getA (getBC w.cr i).commits caller defaultCommit).commitHash = H)
    (hr : (getA (getBC w.cr i).reveals caller defaultReveal).exists0 = false)
    (hvalid : i < w.escrow.nextBountyId)
    (hcr : w.crAddr = w.escrow.commitRevealAddr) :
    (∀ v pct salt, hashFn v pct salt ≠ H →
      ∃ e, revealVerdict w hashFn caller i v pct salt = .error e)
    ∧ (∀ v pct salt, v ≠ .NoneV → pct ≤ 100 → hashFn v pct salt = H →
        isOk (revealVerdict w hashFn caller i v pct salt) = true) := by
  have hnp : ¬ w.cr.paused := by simp [hp]
  have hcb : ((getA (getBC w.cr i).commits caller defaultCommit).exists0 : Prop) := by
    simp [hc]
  have hrb : ¬ ((getA (getBC w.cr i).reveals caller defaultReveal).exists0 : Prop) := by
    simp [hr]
  constructor
  · intro v pct salt hne
    unfold revealVerdict
    rw [require_true hnp]
    simp only [ebind_ok]
    by_cases hv : v = .NoneV
    · exact ⟨"Invalid verdict", by rw [require_false (by simp [hv])]; rfl⟩
    · rw [require_true hv]
      simp only [ebind_ok]
      by_cases hpct : pct ≤ 100
      · rw [require_true hpct]
        simp only [ebind_ok]
        rw [require_true hst]
        simp only [ebind_ok]
        rw [require_true hj]
        simp only [ebind_ok]
        rw [require_true hcb]
        simp only [ebind_ok]
        rw [require_true hrb]
        simp only [ebind_ok]
        refine ⟨"Commit mismatch", ?_⟩
        rw [require_false (by rw [hH]; exact hne)]
        rfl
      · exact ⟨"Invalid percentage", by rw [require_false hpct]; rfl⟩
  · intro v pct salt hv hpct hhash
    unfold revealVerdict
    rw [require_true hnp]
    simp only [ebind_ok]
    rw [require_true hv]
    simp only [ebind_ok]
    rw [require_true hpct]
    simp only [ebind_ok]
    rw [require_true hst]
    simp only [ebind_ok]
    rw [require_true hj]
    simp only [ebind_ok]
    rw [require_true hcb]
    simp only [ebind_ok]
    rw [require_true hrb]
    simp only [ebind_ok]
    rw [require_true (show hashFn v pct salt =
        (getA (getBC w.cr i).commits caller defaultCommit).commitHash by
      rw [hH]; exact hhash)]
    simp only [ebind_ok]
    obtain ⟨s1, hs1⟩ := recordVerdict_isOk hvalid hcr hv hj
    rw [hs1]
    rfl

/-- C6 witness: judge 1 of `wReveal` committed to `hf Pass 0 5 = 1000005`;
the reveal with a wrong salt (99) is rejected, the reveal with the correct
triple succeeds. -/
theorem revealVerdict_mismatch_witness :
    (∃ e, revealVerdict wReveal hf 1 0 .Pass 0 99 = .error e)
    ∧ isOk (revealVerdict wReveal hf 1 0 .Pass 0 5) = true := by
  have h := revealVerdict_mismatch_rejected_and_retryable wReveal hf 1 0 1000005
    rfl rfl (by decide) rfl rfl rfl (by decide) rfl
  exact ⟨h.1 .Pass 0 99 (by decide), h.2 .Pass 0 5 (by decide) (by decide) (by decide)⟩

/-- C10: `penalizeNoReveal` is `onlyOwner`: every caller other than the
CommitReveal owner is rejected up front (OpenZeppelin
`OwnableUnauthorizedAccount`), with no state change (our revert semantics),
regardless of the other preconditions. -/
theorem penalizeNoReveal_only_owner (w : World) (caller i judge now : Nat)
    (h : caller ≠ w.cr.ownerAddr) :
    penalizeNoReveal w caller i judge now = .error "OwnableUnauthorizedAccount" := by
  unfold penalizeNoReveal
  rw [require_false h]
  rfl

/-- C10 witness: in `wReveal` every stated precondition of the penalty
holds for judge 1 after the reveal deadline (the owner call succeeds), yet
the same call from non-owner address 7 is rejected. -/
theorem penalizeNoReveal_only_owner_witness :
    penalizeNoReveal wReveal 7 0 1 999999 = .error "OwnableUnauthorizedAccount"
    ∧ isOk (penalizeNoReveal wReveal 99 0 1 999999) = true :=
  ⟨penalizeNoReveal_only_owner wReveal 7 0 1 999999 (by decide), by rfl⟩

end CommitReveal

namespace JudgeSelection

theorem assignJudges_panel {s s' : EscrowJudge.State} {caller i now : Nat}
    {js : List Nat}
    (h : EscrowJudge.assignJudges s caller i js now = .ok s') :
    EscrowJudge.getPanelJudges s' i = EscrowJudge.getPanelJudges s i ++ js := by
  unfold EscrowJudge.assignJudges at h
  obtain ⟨-, h⟩ := require_bind_elim h
  obtain ⟨-, h⟩ := require_bind_elim h
  obtain ⟨-, h⟩ := require_bind_elim h
  obtain ⟨-, h⟩ := require_bind_elim h
  obtain ⟨-, h⟩ := require_bind_elim h
  simp only [epure, Except.ok.injEq] at h
  subst h
  simp [EscrowJudge.getPanelJudges, EscrowJudge.getPanel, EscrowJudge.setBounty,
        EscrowJudge.setPanel, getA_setA]

theorem selectLoop_no_conflict (reg : JudgeRegistry.State) (elig : List Nat)
    (poster worker seed bountyId : Nat) (rand : Nat → Nat → Nat) :
    ∀ fuel attempt selected sel r,
      selected.Nodup → poster ∉ selected → worker ∉ selected →
      selectLoop reg elig poster worker seed bountyId rand fuel attempt
        selected sel = .ok r →
      r.1.Nodup ∧ poster ∉ r.1 ∧ worker ∉ r.1 := by
  intro fuel
  induction fuel with
  | zero =>
    intro attempt selected sel r h1 h2 h3 h
    simp only [selectLoop] at h
    injection h with h
    subst h
    exact ⟨h1, h2, h3⟩
  | succ n ih =>
    intro attempt selected sel r h1 h2 h3 h
    simp only [selectLoop] at h
    split at h
    · split at h
      · simp at h
      · rename_i cand hw
        split at h
        · exact ih _ _ _ _ h1 h2 h3 h
        · split at h
          · exact ih _ _ _ _ h1 h2 h3 h
          · split at h
            · exact ih _ _ _ _ h1 h2 h3 h
            · rename_i hmem hconf hfr
              have hcp : ¬ (cand = poster) ∧ ¬ (cand = worker) := by
                simpa [hasConflict, not_or] using hconf
              refine ih _ _ _ _ ?_ ?_ ?_ h
              · simp [List.nodup_append, h1, hmem]
              · intro hin
                rcases List.mem_append.mp hin with hl | hr
                · exact h2 hl
                · simp at hr
                  exact hcp.1 hr.symm
              · intro hin
                rcases List.mem_append.mp hin with hl | hr
                · exact h3 hl
                · simp at hr
                  exact hcp.2 hr.symm
    · injection h with h
      subst h
      exact ⟨h1, h2, h3⟩

theorem selectLoop_pair (reg : JudgeRegistry.State) (elig : List Nat)
    (poster worker seed bountyId x y : Nat) (rand : Nat → Nat → Nat)
    (ph : List ((Nat × Nat) × HistoricalAgreement))
    (hxy : x ≠ y)
    (hfr1 : 3 ≤ (getM ph (x, y) defaultHA).totalCases ∧
      MAX_AGREEMENT_RATE < (getM ph (x, y) defaultHA).agreements * 100 /
        (getM ph (x, y) defaultHA).totalCases)
    (hfr2 : 3 ≤ (getM ph (y, x) defaultHA).totalCases ∧
      MAX_AGREEMENT_RATE < (getM ph (y, x) defaultHA).agreements * 100 /
        (getM ph (y, x) defaultHA).totalCases) :
    ∀ fuel attempt selected sel r,
      sel.pairHistory = ph →
      ¬ (x ∈ selected ∧ y ∈ selected) →
      selectLoop reg elig poster worker seed bountyId rand fuel attempt
        selected sel = .ok r →
      ¬ (x ∈ r.1 ∧ y ∈ r.1) := by
  intro fuel
  induction fuel with
  | zero =>
    intro attempt selected sel r hph hinv h
    simp only [selectLoop] at h
    injection h with h
    subst h
    exact hinv
  | succ n ih =>
    intro attempt selected sel r hph hinv h
    simp only [selectLoop] at h
    split at h
    · split at h
      · simp at h
      · rename_i cand hw
        split at h
        · exact ih _ _ _ _ hph hinv h
        · split at h
          · exact ih _ _ _ _ hph hinv h
          · split at h
            · exact ih _ _ _ _ hph hinv h
            · rename_i hmem hconf hfr
              refine ih _ _ _ _ ?_ ?_ h
              · exact hph
              rintro ⟨hx, hy⟩
              rcases List.mem_append.mp hx with hx1 | hx1 <;>
                rcases List.mem_append.mp hy with hy1 | hy1
              · exact hinv ⟨hx1, hy1⟩
              · simp at hy1
                apply hfr
                unfold formsFriendlyPanel
                rw [List.any_eq_true]
                refine ⟨x, hx1, ?_⟩
                rw [← hy1]
                simp only [isFriendlyPair, getPair, hph]
                rw [if_pos hfr2.1, if_pos hfr2.2]
              · simp at hx1
                apply hfr
                unfold formsFriendlyPanel
                rw [List.any_eq_true]
                refine ⟨y, hy1, ?_⟩
                rw [← hx1]
                simp only [isFriendlyPair, getPair, hph]
                rw [if_pos hfr1.1, if_pos hfr1.2]
              · simp at hx1 hy1
                exact hxy (hx1.trans hy1.symm)
    · injection h with h
      subst h
      exact hinv

/-- C7: every successful `selectJudges` run (any pool, any seed, any
randomness), starting from a bounty with no panel yet, yields a panel with
no duplicate members that contains neither the bounty's poster nor its
worker: every drawn candidate passes the already-selected,
`_hasConflict`, and anti-collusion skips before being added. -/
theorem selectJudges_panel_invariants (w : SelWorld) (caller i seed now : Nat)
    (rand : Nat → Nat → Nat) (w' : SelWorld)
    (hpanel : EscrowJudge.getPanelJudges w.escrow i = [])
    (h : selectJudges w caller i seed now rand = .ok w') :
    (EscrowJudge.getPanelJudges w'.escrow i).Nodup
    ∧ (EscrowJudge.getBounty w.escrow i).poster ∉
        EscrowJudge.getPanelJudges w'.escrow i
    ∧ (EscrowJudge.getBounty w.escrow i).worker ∉
        EscrowJudge.getPanelJudges w'.escrow i := by
  unfold selectJudges at h
  obtain ⟨-, h⟩ := require_bind_elim h
  obtain ⟨-, h⟩ := require_bind_elim h
  obtain ⟨-, h⟩ := require_bind_elim h
  obtain ⟨-, h⟩ := require_bind_elim h
  obtain ⟨-, h⟩ := require_bind_elim h
  obtain ⟨r, hloop, h⟩ := bind_elim h
  obtain ⟨-, h⟩ := require_bind_elim h
  obtain ⟨esc1, hassign, h⟩ := bind_elim h
  simp only [epure, Except.ok.injEq] at h
  subst h
  have hinv := selectLoop_no_conflict w.reg
    (JudgeRegistry.getEligibleJudges w.reg)
    (EscrowJudge.getBounty w.escrow i).poster
    (EscrowJudge.getBounty w.escrow i).worker seed i rand _ _ _ _ _
    List.nodup_nil (by simp) (by simp) hloop
  have hpj := assignJudges_panel hassign
  rw [hpanel, List.nil_append] at hpj
  show (EscrowJudge.getPanelJudges esc1 i).Nodup ∧ _ ∧ _
  rw [hpj]
  exact hinv

/-- C7 witness: the invariant theorem applied to the concrete selection on
`wSel` (pool 1..5, poster 10, worker 11). -/
theorem selectJudges_panel_invariants_witness :
    (EscrowJudge.getPanelJudges wSelOut.escrow 0).Nodup
    ∧ (EscrowJudge.getBounty wSel.escrow 0).poster ∉
        EscrowJudge.getPanelJudges wSelOut.escrow 0
    ∧ (EscrowJudge.getBounty wSel.escrow 0).worker ∉
        EscrowJudge.getPanelJudges wSelOut.escrow 0 :=
  selectJudges_panel_invariants wSel 99 0 0 500 (fun _ _ => 0) wSelOut rfl rfl

/-- C8: amended friendly-pair exclusion.  Two distinct participants whose
recorded pair history (in both lookup directions, as `recordAgreement`
maintains it) shows at least 3 co-served cases AND a floor-divided integer
agreement percentage `agreements * 100 / totalCases` strictly above 90 are
never both placed on a panel by a successful `selectJudges` run.  The
original claim instead uses the exact agreement rate; it fails for ratios
like 10/11 (90.9% > 90% but integer rate 90), see the counterexample. -/
theorem selectJudges_friendly_pair_excluded (w : SelWorld)
    (caller i seed now x y : Nat) (rand : Nat → Nat → Nat) (w' : SelWorld)
    (hxy : x ≠ y)
    (hfr1 : 3 ≤ (getPair w.sel x y).totalCases ∧
      MAX_AGREEMENT_RATE < (getPair w.sel x y).agreements * 100 /
        (getPair w.sel x y).totalCases)
    (hfr2 : 3 ≤ (getPair w.sel y x).totalCases ∧
      MAX_AGREEMENT_RATE < (getPair w.sel y x).agreements * 100 /
        (getPair w.sel y x).totalCases)
    (hpanel : EscrowJudge.getPanelJudges w.escrow i = [])
    (h : selectJudges w caller i seed now rand = .ok w') :
    ¬ (x ∈ EscrowJudge.getPanelJudges w'.escrow i
        ∧ y ∈ EscrowJudge.getPanelJudges w'.escrow i) := by
  unfold selectJudges at h
  obtain ⟨-, h⟩ := require_bind_elim h
  obtain ⟨-, h⟩ := require_bind_elim h
  obtain ⟨-, h⟩ := require_bind_elim h
  obtain ⟨-, h⟩ := require_bind_elim h
  obtain ⟨-, h⟩ := require_bind_elim h
  obtain ⟨r, hloop, h⟩ := bind_elim h
  obtain ⟨-, h⟩ := require_bind_elim h
  obtain ⟨esc1, hassign, h⟩ := bind_elim h
  simp only [epure, Except.ok.injEq] at h
  subst h
  have hinv := selectLoop_pair w.reg (JudgeRegistry.getEligibleJudges w.reg)
    (EscrowJudge.getBounty w.escrow i).poster
    (EscrowJudge.getBounty w.escrow i).worker seed i x y rand
    w.sel.pairHistory hxy hfr1 hfr2 _ _ _ _ _ rfl (by simp) hloop
  have hpj := assignJudges_panel hassign
  rw [hpanel, List.nil_append] at hpj
  show ¬ (x ∈ EscrowJudge.getPanelJudges esc1 i ∧
      y ∈ EscrowJudge.getPanelJudges esc1 i)
  rw [hpj]
  exact hinv

/-- C8 witness: judges 1 and 2 of `wSelNine` have a 10-of-10 (100%)
recorded agreement history; the concrete selection succeeds and never
seats them together. -/
theorem selectJudges_friendly_pair_excluded_witness :
    ¬ (1 ∈ EscrowJudge.getPanelJudges wSelNineOut.escrow 0
        ∧ 2 ∈ EscrowJudge.getPanelJudges wSelNineOut.escrow 0) :=
  selectJudges_friendly_pair_excluded wSelNine 99 0 0 500 1 2
    (fun _ a => 500 * a) wSelNineOut (by decide) (by decide) (by decide)
    rfl rfl

/-- C8 counterexample: judges 1 and 2 of `wSelPair` co-served 11 times and
agreed 10 times — an exact agreement rate of 10/11 = 90.9%, strictly above
90% — yet a successful selection seats BOTH on the panel, because the
contract compares the floor-divided integer rate (90) with 90. -/
theorem selectJudges_seats_exact_rate_above_90 :
    (selectJudges wSelPair 99 0 0 500 (fun _ _ => 0)).map
        (fun w => EscrowJudge.getPanelJudges w.escrow 0) = .ok [1, 2, 3, 4, 5]
    ∧ 3 ≤ (getPair wSelPair.sel 1 2).totalCases
    ∧ 90 * (getPair wSelPair.sel 1 2).totalCases
        < (getPair wSelPair.sel 1 2).agreements * 100 :=
  ⟨rfl, by decide, by decide⟩

/-- C3: `expandPanel` on a disputed bounty with a standard 5-member panel
succeeds, but the escrow contract's state — in particular its panel — is
completely unchanged: the function only emits `PanelExpanded` (its comment
defers combining to EscrowJudge, which has no such function), so the panel
held by the escrow keeps 5 members instead of 9, and no tally over an
expanded panel (let alone one with threshold `EXPANDED_SUPERMAJORITY = 6`,
a constant no code reads) can ever run: `processVerdict` on the disputed
bounty reverts. -/
theorem expandPanel_leaves_escrow_panel_unchanged :
    ((expandPanel wDisputed 99 0 0 (fun _ _ => 2500)).map fun w => w.escrow)
      = .ok wDisputed.escrow
    ∧ ((expandPanel wDisputed 99 0 0 (fun _ _ => 2500)).map
        (fun w => (EscrowJudge.getPanelJudges w.escrow 0).length)) = .ok 5
    ∧ (5 : Nat) ≠ EXPANDED_PANEL_SIZE
    ∧ EscrowJudge.processVerdict wDisputed.escrow 0 999999999
        = .error "Not in reveal phase" :=
  ⟨rfl, rfl, by decide, rfl⟩

end JudgeSelection

namespace EscrowJudge

theorem executeVerdict_pass_ok {s : State} {i : Nat}
    (hworker : (getBounty s i).worker ≠ 0) (htreas : s.treasury ≠ 0)
    (hfee : (getBounty s i).feeAmount ≤ (getBounty s i).amount) :
    executeVerdict s i .Pass 0 = .ok
      { s with
        bounties := setA s.bounties i
          { getBounty s i with status := .Completed, partPct := 0 }
        transfers :=
          (s.treasury, (getBounty s i).token, (getBounty s i).feeAmount) ::
          ((getBounty s i).worker, (getBounty s i).token,
            (getBounty s i).amount - (getBounty s i).feeAmount) :: s.transfers
        events := .FundsReleased i .Pass
          ((getBounty s i).amount - (getBounty s i).feeAmount)
          (getBounty s i).feeAmount :: s.events } := by
  simp only [executeVerdict]
  rw [csub_ok hfee]
  simp only [ebind_ok]
  unfold transferFunds
  rw [require_true hworker, require_true htreas]
  rfl

theorem executeVerdict_head_event {s s' : State} {i : Nat} {v : Verdict}
    {pct : Nat} (h : executeVerdict s i v pct = .ok s') :
    ∃ wa, s'.events.head? =
      some (.FundsReleased i v wa (getBounty s i).feeAmount) := by
  simp only [executeVerdict] at h
  cases v with
  | NoneV =>
    obtain ⟨y, h1, h⟩ := bind_elim h
    simp only [epure, Except.ok.injEq] at h
    subst h
    exact ⟨y.2, rfl⟩
  | Pass =>
    obtain ⟨wa, h1, h⟩ := bind_elim h
    obtain ⟨s1, h2, h⟩ := bind_elim h
    obtain ⟨s2, h3, h⟩ := bind_elim h
    obtain ⟨y, h4, h⟩ := bind_elim h
    simp only [epure, Except.ok.injEq] at h
    subst h
    exact ⟨y.2, rfl⟩
  | Fail =>
    obtain ⟨s1, h1, h⟩ := bind_elim h
    split at h
    · obtain ⟨s2, h2, h⟩ := bind_elim h
      obtain ⟨y, h3, h⟩ := bind_elim h
      simp only [epure, Except.ok.injEq] at h
      subst h
      exact ⟨y.2, rfl⟩
    · obtain ⟨s2, h2, h⟩ := bind_elim h
      obtain ⟨y, h3, h⟩ := bind_elim h
      simp only [epure, Except.ok.injEq] at h
      subst h
      exact ⟨y.2, rfl⟩
  | Part =>
    obtain ⟨u, h1, h⟩ := bind_elim h
    obtain ⟨wa, h2, h⟩ := bind_elim h
    obtain ⟨pr, h3, h⟩ := bind_elim h
    obtain ⟨s1, h4, h⟩ := bind_elim h
    obtain ⟨s2, h5, h⟩ := bind_elim h
    obtain ⟨s3, h6, h⟩ := bind_elim h
    obtain ⟨y, h7, h⟩ := bind_elim h
    simp only [epure, Except.ok.injEq] at h
    subst h
    exact ⟨y.2, rfl⟩

/-- C9: for a standard 5-judge case in `Reveal` past its reveal deadline
(well-formed: nonzero worker and treasury, fee within the amount, not
paused), `processVerdict` settles the case as `Completed` with a Pass
payout event exactly when at least 4 of the revealed votes are Pass; and
when the revealed votes are 3 Pass / 2 Fail / 0 Partial, it transitions the
case to `Disputed` and moves no funds. -/
theorem processVerdict_supermajority (s : State) (i now : Nat)
    (hvalid : i < s.nextBountyId) (hpaused : s.paused = false)
    (hstatus : (getBounty s i).status = .Reveal)
    (hdl : (getPanel s i).revealDeadline < now)
    (_hlen : (getPanel s i).judges.length = 5)
    (hworker : (getBounty s i).worker ≠ 0)
    (htreas : s.treasury ≠ 0)
    (hfee : (getBounty s i).feeAmount ≤ (getBounty s i).amount) :
    ((∃ s', processVerdict s i now = .ok s'
        ∧ (getBounty s' i).status = .Completed
        ∧ s'.events.head? = some (.FundsReleased i .Pass
            ((getBounty s i).amount - (getBounty s i).feeAmount)
            (getBounty s i).feeAmount))
      ↔ 4 ≤ (tally (getPanel s i)).passCount)
    ∧ ((tally (getPanel s i)).passCount = 3
        ∧ (tally (getPanel s i)).failCount = 2
        ∧ (tally (getPanel s i)).partCount = 0 →
        ∃ s', processVerdict s i now = .ok s'
          ∧ (getBounty s' i).status = .Disputed
          ∧ s'.transfers = s.transfers) := by
  have hnp : ¬ s.paused := by simp [hpaused]
  constructor
  · constructor
    · rintro ⟨s', hok, hcomp, hhead⟩
      by_contra hlt
      unfold processVerdict at hok
      obtain ⟨-, hok⟩ := require_bind_elim hok
      obtain ⟨-, hok⟩ := require_bind_elim hok
      obtain ⟨-, hok⟩ := require_bind_elim hok
      obtain ⟨-, hok⟩ := require_bind_elim hok
      obtain ⟨-, hok⟩ := require_bind_elim hok
      simp only [SUPERMAJORITY_THRESHOLD] at hok
      rw [if_neg hlt] at hok
      split at hok
      · obtain ⟨wa, hw⟩ := executeVerdict_head_event hok
        rw [hhead] at hw
        simp at hw
      · split at hok
        · obtain ⟨wa, hw⟩ := executeVerdict_head_event hok
          rw [hhead] at hw
          simp at hw
        · simp only [epure, Except.ok.injEq] at hok
          subst hok
          simp [initiateDispute] at hhead
    · intro hpass
      have hpass' : SUPERMAJORITY_THRESHOLD ≤ (tally (getPanel s i)).passCount := by
        simpa [SUPERMAJORITY_THRESHOLD] using hpass
      have hrev : 0 < (tally (getPanel s i)).passCount
          + (tally (getPanel s i)).failCount + (tally (getPanel s i)).partCount := by
        omega
      refine ⟨{ s with
          bounties := setA s.bounties i
            { getBounty s i with status := .Completed, partPct := 0 }
          transfers :=
            (s.treasury, (getBounty s i).token, (getBounty s i).feeAmount) ::
            ((getBounty s i).worker, (getBounty s i).token,
              (getBounty s i).amount - (getBounty s i).feeAmount) :: s.transfers
          events := .FundsReleased i .Pass
            ((getBounty s i).amount - (getBounty s i).feeAmount)
            (getBounty s i).feeAmount :: s.events }, ?_, ?_, ?_⟩
      · unfold processVerdict
        rw [require_true hvalid]
        simp only [ebind_ok]
        rw [require_true hnp]
        simp only [ebind_ok]
        rw [require_true hstatus]
        simp only [ebind_ok]
        rw [require_true hdl]
        simp only [ebind_ok]
        rw [require_true hrev]
        simp only [ebind_ok]
        rw [if_pos hpass']
        exact executeVerdict_pass_ok hworker htreas hfee
      · simp [getBounty, getA_setA]
      · rfl
  · rintro ⟨h3, h2f, h0⟩
    have hno1 : ¬ SUPERMAJORITY_THRESHOLD ≤ (tally (getPanel s i)).passCount := by
      simp [SUPERMAJORITY_THRESHOLD, h3]
    have hno2 : ¬ SUPERMAJORITY_THRESHOLD ≤ (tally (getPanel s i)).failCount := by
      simp [SUPERMAJORITY_THRESHOLD, h2f]
    have hno3 : ¬ SUPERMAJORITY_THRESHOLD ≤ (tally (getPanel s i)).partCount := by
      simp [SUPERMAJORITY_THRESHOLD, h0]
    have hrev : 0 < (tally (getPanel s i)).passCount
        + (tally (getPanel s i)).failCount + (tally (getPanel s i)).partCount := by
      omega
    refine ⟨initiateDispute s i now, ?_, ?_, rfl⟩
    · unfold processVerdict
      rw [require_true hvalid]
      simp only [ebind_ok]
      rw [require_true hnp]
      simp only [ebind_ok]
      rw [require_true hstatus]
      simp only [ebind_ok]
      rw [require_true hdl]
      simp only [ebind_ok]
      rw [require_true hrev]
      simp only [ebind_ok]
      rw [if_neg hno1, if_neg hno2, if_neg hno3]
      rfl
    · simp [initiateDispute, setBounty, getBounty, getA_setA]

/-- C9 witness: `escBase` holds 4 Pass / 1 Fail revealed votes; processing
after the deadline completes the case with the Pass payout event (worker
980 USDC, treasury 20 USDC of the 1000 USDC escrow). -/
theorem processVerdict_supermajority_witness :
    processVerdict escBase 0 300000 = .ok escPVOut
    ∧ (getBounty escPVOut 0).status = .Completed
    ∧ escPVOut.events.head? =
        some (.FundsReleased 0 .Pass (980 * 10 ^ 6) (20 * 10 ^ 6)) := by
  obtain ⟨s', h1, h2, h3⟩ := (processVerdict_supermajority escBase 0 300000
    (by decide) rfl rfl (by decide) rfl (by decide) (by decide)
    (by decide)).1.mpr (by decide)
  have he : escPVOut = s' := by
    unfold escPVOut
    rw [h1]
    rfl
  rw [he]
  refine ⟨h1, h2, ?_⟩
  rw [h3]
  rfl

end EscrowJudge

end Clawjudge
